import Mathlib

/-!
# Verification of `gazebo_recognition_node.py` (face_recognition_ros)

Shallow embedding of the single-object visual tracker node in
`src/gazebo_recognition_node.py`.  Real numbers stand in for IEEE floats
(all angles in the program are multiples of π/2, so every matrix entry is
exactly representable); external OpenCV / ROS collaborators (image decode,
flip, color conversion, thresholding, contour finding, transport publish)
are modelled as fallible operations supplied as parameters, per the spec's
"external collaborators" boundary.
-/

open Real Matrix

namespace GazeboRecognition

/-! ## `tf.transformations` helpers used by the node -/

/-- Embedding of `tf.transformations.unit_vector(data)`: `data / sqrt(dot(data, data))`
for a 3-vector. -/
noncomputable def unit_vector (d : Fin 3 → ℝ) : Fin 3 → ℝ :=
  fun i => d i / Real.sqrt (d 0 * d 0 + d 1 * d 1 + d 2 * d 2)

/-- Embedding of `tf.transformations.rotation_matrix(angle, direction)` (no `point`
argument): the 4×4 homogeneous rotation about the normalized `direction`
through the origin, built by the Rodrigues formula
`R = diag(cosa) + outer(u,u)·(1−cosa) + sina·[u]ₓ`, embedded as the
upper-left 3×3 block of an identity 4×4 matrix. -/
noncomputable def rotation_matrix (angle : ℝ) (direction : Fin 3 → ℝ) :
    Matrix (Fin 4) (Fin 4) ℝ :=
  let sina := Real.sin angle
  let cosa := Real.cos angle
  let u := unit_vector direction
  let diag : Fin 3 → Fin 3 → ℝ := fun i j => if i = j then cosa else 0
  let outer : Fin 3 → Fin 3 → ℝ := fun i j => u i * u j * (1 - cosa)
  let skew : Fin 3 → Fin 3 → ℝ :=
    ![![0, -(u 2 * sina), u 1 * sina],
      ![u 2 * sina, 0, -(u 0 * sina)],
      ![-(u 1 * sina), u 0 * sina, 0]]
  let R : Fin 3 → Fin 3 → ℝ := fun i j => diag i j + outer i j + skew i j
  Matrix.of ![![R 0 0, R 0 1, R 0 2, 0],
              ![R 1 0, R 1 1, R 1 2, 0],
              ![R 2 0, R 2 1, R 2 2, 0],
              ![0, 0, 0, 1]]

/-! ## `ObjectTracker.setup_transforms` -/

/-- Embedding of `rot_x_pi = rotation_matrix(np.pi, [1, 0, 0])`.  Computed by
`setup_transforms` but never used afterwards. -/
noncomputable def rot_x_pi : Matrix (Fin 4) (Fin 4) ℝ :=
  rotation_matrix Real.pi ![1, 0, 0]

/-- Embedding of `rot_x_minus_pi_2 = rotation_matrix(-np.pi/2, [1, 0, 0])`. -/
noncomputable def rot_x_minus_pi_2 : Matrix (Fin 4) (Fin 4) ℝ :=
  rotation_matrix (-(Real.pi / 2)) ![1, 0, 0]

/-- Embedding of `rot_z_minus_pi_2 = rotation_matrix(-np.pi/2, [0, 0, 1])`. -/
noncomputable def rot_z_minus_pi_2 : Matrix (Fin 4) (Fin 4) ℝ :=
  rotation_matrix (-(Real.pi / 2)) ![0, 0, 1]

/-- Embedding of `align_rot_y = rotation_matrix(-np.pi/2, [0, 1, 0])`. -/
noncomputable def align_rot_y : Matrix (Fin 4) (Fin 4) ℝ :=
  rotation_matrix (-(Real.pi / 2)) ![0, 1, 0]

/-- Embedding of `align_rot_z = rotation_matrix(np.pi, [0, 0, 1])`. -/
noncomputable def align_rot_z : Matrix (Fin 4) (Fin 4) ℝ :=
  rotation_matrix Real.pi ![0, 0, 1]

/-- Embedding of `align_rot = np.matmul(align_rot_z, align_rot_y)`. -/
noncomputable def align_rot : Matrix (Fin 4) (Fin 4) ℝ :=
  align_rot_z * align_rot_y

/-- Embedding of `rot_mat = np.matmul(np.matmul(align_rot, rot_z_minus_pi_2), rot_x_minus_pi_2)`. -/
noncomputable def rot_mat : Matrix (Fin 4) (Fin 4) ℝ :=
  align_rot * rot_z_minus_pi_2 * rot_x_minus_pi_2

/-- Embedding of `trans_mat = np.eye(4); trans_mat[0:3, 3] = [0.2785, 0.0125, 0.0167]`. -/
noncomputable def trans_mat : Matrix (Fin 4) (Fin 4) ℝ :=
  Matrix.of ![![1, 0, 0, 0.2785],
              ![0, 1, 0, 0.0125],
              ![0, 0, 1, 0.0167],
              ![0, 0, 0, 1]]

/-- Embedding of `self.transform_mat = np.matmul(trans_mat, rot_mat)`. -/
noncomputable def transform_mat : Matrix (Fin 4) (Fin 4) ℝ :=
  trans_mat * rot_mat

/-- Embedding of `self.inv_transform_mat = np.linalg.inv(self.transform_mat)`. -/
noncomputable def inv_transform_mat : Matrix (Fin 4) (Fin 4) ℝ :=
  transform_mat⁻¹

/-! ## Spec-side rotation composition for claim C1 (refinement comparison)

Modelled from the spec's words, NOT from the code: spec §4.2 describes the
extrinsic rotation as "(1) a 180° rotation about the camera's horizontal
axis, (2) a −90° rotation about the camera's horizontal axis, then a −90°
rotation about the camera's vertical axis", composed in that order.  Both
possible readings of "in this order" are formalized (rightmost factor
applied first to a column vector, and left-to-right matrix products), and
both possible readings of "vertical axis" (the z axis used by the code's
`rot_z_minus_pi_2`, and the y axis). -/

/-- Spec-claimed rotation, horizontal = x / vertical = z, with rotation (1)
applied first to a vector (so it is the rightmost matrix factor). -/
noncomputable def spec_rotation_xz_apply : Matrix (Fin 4) (Fin 4) ℝ :=
  rot_z_minus_pi_2 * rot_x_minus_pi_2 * rot_x_pi

/-- Spec-claimed rotation, horizontal = x / vertical = z, reading "composed
in this order" as a left-to-right matrix product. -/
noncomputable def spec_rotation_xz_mul : Matrix (Fin 4) (Fin 4) ℝ :=
  rot_x_pi * rot_x_minus_pi_2 * rot_z_minus_pi_2

/-- Spec-claimed rotation, horizontal = x / vertical = y, with rotation (1)
applied first to a vector. -/
noncomputable def spec_rotation_xy_apply : Matrix (Fin 4) (Fin 4) ℝ :=
  rotation_matrix (-(Real.pi / 2)) ![0, 1, 0] * rot_x_minus_pi_2 * rot_x_pi

/-- Spec-claimed rotation, horizontal = x / vertical = y, as a left-to-right
matrix product. -/
noncomputable def spec_rotation_xy_mul : Matrix (Fin 4) (Fin 4) ℝ :=
  rot_x_pi * rot_x_minus_pi_2 * rotation_matrix (-(Real.pi / 2)) ![0, 1, 0]

/-! ## `ObjectTracker.transform_point` -/

/-- Embedding of `transform_point(point_camera)`: append a homogeneous `1.0`, multiply by
`self.inv_transform_mat`, return the first three components (`[:3]`). -/
noncomputable def transform_point (point_camera : Fin 3 → ℝ) : Fin 3 → ℝ :=
  let point_h : Fin 4 → ℝ := ![point_camera 0, point_camera 1, point_camera 2, 1.0]
  let point_trunk := Matrix.mulVec inv_transform_mat point_h
  ![point_trunk 0, point_trunk 1, point_trunk 2]

/-- Helper (not in the code, which never applies the forward matrix to a
point): apply an arbitrary homogeneous 4×4 matrix to a 3-point the same way
`transform_point` applies `inv_transform_mat`.  Used to state claims C4 and
C5 about the forward direction. -/
noncomputable def apply_homogeneous (M : Matrix (Fin 4) (Fin 4) ℝ)
    (p : Fin 3 → ℝ) : Fin 3 → ℝ :=
  let ph : Fin 4 → ℝ := ![p 0, p 1, p 2, 1.0]
  let q := Matrix.mulVec M ph
  ![q 0, q 1, q 2]

/-! ## `numpy` math helpers used by the node -/

/-- Embedding of `np.arctan2(y, x)` on reals: the angle of the point `(x, y)`, in
`(−π, π]`, with `arctan2(0, 0) = 0` (numpy's value at positive zeros; signed
zeros are not representable over ℝ). -/
noncomputable def arctan2 (y x : ℝ) : ℝ :=
  if 0 < x then Real.arctan (y / x)
  else if x < 0 then
    (if 0 ≤ y then Real.arctan (y / x) + Real.pi else Real.arctan (y / x) - Real.pi)
  else
    (if 0 < y then Real.pi / 2 else if y < 0 then -(Real.pi / 2) else 0)

/-- Embedding of `tf.transformations.quaternion_from_euler(ai, aj, ak)` with the default
`axes='sxyz'` (firstaxis 0, parity 0, repetition 0, frame 0), returning the
quaternion as `[x, y, z, w]`. -/
noncomputable def quaternion_from_euler (ai aj ak : ℝ) : Fin 4 → ℝ :=
  let ai := ai / 2
  let aj := aj / 2
  let ak := ak / 2
  let ci := Real.cos ai
  let si := Real.sin ai
  let cj := Real.cos aj
  let sj := Real.sin aj
  let ck := Real.cos ak
  let sk := Real.sin ak
  let cc := ci * ck
  let cs := ci * sk
  let sc := si * ck
  let ss := si * sk
  ![cj * sc - sj * cs,
    cj * ss + sj * cc,
    cj * cs - sj * sc,
    cj * cc + sj * ss]

/-! ## `ObjectTracker.publish_marker` -/

/-- Published RViz marker message, with the fields `publish_marker` sets.
`orientation` is `[x, y, z, w]`, `color` is `[r, g, b, a]`. -/
structure Marker where
  frame_id : String
  shape : String
  action : String
  position : Fin 3 → ℝ
  orientation : Fin 4 → ℝ
  scale : Fin 3 → ℝ
  color : Fin 4 → ℝ

/-- Embedding of `publish_marker(point_trunk)`: builds the ARROW marker anchored at the
body-frame origin with yaw/pitch from the direction vector and length equal
to its norm, and hands it to the publisher. -/
noncomputable def publish_marker (point_trunk : Fin 3 → ℝ) : Marker :=
  let dx := point_trunk 0
  let dy := point_trunk 1
  let dz := point_trunk 2
  let yaw := -(arctan2 dy dx)
  let pitch := arctan2 dz (Real.sqrt (dx * dx + dy * dy))
  let q := quaternion_from_euler 0 pitch (yaw - Real.pi / 2)
  let dist := Real.sqrt (dx * dx + dy * dy + dz * dz)
  { frame_id := "trunk"
    shape := "ARROW"
    action := "ADD"
    position := ![0, 0, 0]
    orientation := q
    scale := ![dist, 0.05, 0.05]
    color := ![1.0, 0.0, 0.0, 1.0] }

/-! ## Tracker state and `ObjectTracker.camera_info_callback` -/

/-- Mutable fields of `ObjectTracker` touched by the callbacks: the stored
intrinsics, the readiness flag, and which subscriptions are active. -/
structure TrackerState where
  got_camera_info : Bool
  fx : ℝ
  fy : ℝ
  cx : ℝ
  cy : ℝ
  image_width : ℕ
  image_height : ℕ
  camera_info_sub_active : Bool
  image_sub_active : Bool

/-- Inbound `sensor_msgs/CameraInfo` message: the row-major 3×3 intrinsic
matrix `K` (9 scalars) plus announced width and height. -/
structure CameraInfoMsg where
  K : Fin 9 → ℝ
  width : ℕ
  height : ℕ

/-- Embedding of `camera_info_callback(msg)`: if `got_camera_info` is still false, store
`fx = K[0][0]`, `fy = K[1][1]`, `cx = K[0][2]`, `cy = K[1][2]` (row-major
indices 0, 4, 2, 5 after `reshape(3, 3)`), the width/height, set the flag,
subscribe to images and unregister the camera-info subscription; otherwise
do nothing. -/
def camera_info_callback (st : TrackerState) (msg : CameraInfoMsg) : TrackerState :=
  if st.got_camera_info = false then
    { got_camera_info := true
      fx := msg.K 0
      fy := msg.K 4
      cx := msg.K 2
      cy := msg.K 5
      image_width := msg.width
      image_height := msg.height
      camera_info_sub_active := false
      image_sub_active := true }
  else st

/-! ## `ObjectTracker.image_callback` -/

/-- Embedding of `lower_green = np.array([40, 40, 40])`. -/
def lower_green : Fin 3 → ℕ := ![40, 40, 40]

/-- Embedding of `upper_green = np.array([80, 255, 255])`. -/
def upper_green : Fin 3 → ℕ := ![80, 255, 255]

/-- Camera-frame ray computed inside `image_callback` from the blob centre:
`cam_x = -((center_x - image_width/2) / fx)`,
`cam_y = -((center_y - image_height/2) / fy)`, `depth = 1.0`,
`point_camera = [depth, -cam_x * depth, -cam_y * depth]`. -/
noncomputable def point_camera (fx fy : ℝ) (image_width image_height : ℕ)
    (center_x center_y : ℝ) : Fin 3 → ℝ :=
  let cam_x := -((center_x - (image_width : ℝ) / 2) / fx)
  let cam_y := -((center_y - (image_height : ℝ) / 2) / fy)
  let depth := (1.0 : ℝ)
  ![depth, -cam_x * depth, -cam_y * depth]

/-- Python's `max(hd :: tl, key=f)`: fold keeping the current maximum,
replacing it only on a strictly greater key, so the first maximal element
wins ties. -/
noncomputable def max_by_key {α : Type} (f : α → ℝ) (hd : α) (tl : List α) : α :=
  tl.foldl (fun acc c => if f acc < f c then c else acc) hd

/-- External OpenCV / ROS collaborators invoked by `image_callback`, each of
which may raise (modelled as `Except`): CvBridge decode, `cv2.flip`,
`cv2.cvtColor`, `cv2.inRange`, `cv2.findContours`, `cv2.contourArea`,
`cv2.boundingRect`, and the transport `publish`.  The debug drawing calls
(`cv2.rectangle`, `cv2.circle`, `cv2.imshow`, `cv2.waitKey`) are on-screen
rendering, out of scope per the spec, and are not modelled.  Types of
messages, images, masks and contours are opaque parameters. -/
structure ExternalOps (Msg Img Mask Contour : Type) where
  imgmsg_to_cv2 : Msg → Except String Img
  flip : Img → Except String Img
  cvtColor : Img → Except String Img
  inRange : Img → (Fin 3 → ℕ) → (Fin 3 → ℕ) → Except String Mask
  findContours : Mask → Except String (List Contour)
  contourArea : Contour → ℝ
  boundingRect : Contour → Except String (ℤ × ℤ × ℤ × ℤ)
  publish : Marker → Except String Unit

/-- Body of the `try:` block of `image_callback`: decode, flip both ways,
convert to HSV, threshold, find contours; if any contour exists, take the
largest by area, back-project its bounding-box centre to a camera ray,
transform it to the trunk frame and publish the marker.  Returns the list
of messages actually handed to the publisher (empty when there is no
detection). -/
noncomputable def image_callback_try_body {Msg Img Mask Contour : Type}
    (ops : ExternalOps Msg Img Mask Contour) (st : TrackerState) (msg : Msg) :
    Except String (List Marker) := do
  let cv_image ← ops.imgmsg_to_cv2 msg
  let cv_image ← ops.flip cv_image
  let hsv ← ops.cvtColor cv_image
  let mask ← ops.inRange hsv lower_green upper_green
  let contours ← ops.findContours mask
  match contours with
  | [] => pure []
  | c :: cs =>
    let largest_contour := max_by_key ops.contourArea c cs
    let r ← ops.boundingRect largest_contour
    let x := r.1
    let y := r.2.1
    let w := r.2.2.1
    let h := r.2.2.2
    let center_x := (x : ℝ) + (w : ℝ) / 2
    let center_y := (y : ℝ) + (h : ℝ) / 2
    let pc := point_camera st.fx st.fy st.image_width st.image_height center_x center_y
    let point_trunk := transform_point pc
    let marker := publish_marker point_trunk
    let _ ← ops.publish marker
    pure [marker]

/-- Embedding of `image_callback(msg)`: drop the frame silently when calibration has not
arrived; otherwise run the `try:` body, and on any raised exception log and
skip the frame.  Returns the (unchanged) tracker state together with the
list of published messages for this frame. -/
noncomputable def image_callback {Msg Img Mask Contour : Type}
    (ops : ExternalOps Msg Img Mask Contour) (st : TrackerState) (msg : Msg) :
    TrackerState × List Marker :=
  if st.got_camera_info = false then (st, [])
  else
    match image_callback_try_body ops st msg with
    | Except.ok markers => (st, markers)
    | Except.error _ => (st, [])

/-! ## Concrete sample inputs (used by witnesses) -/

/-- Concrete external operations over ℕ handles: every stage succeeds and
the thresholded mask contains no contours. -/
def sample_ops_empty : ExternalOps ℕ ℕ ℕ ℕ where
  imgmsg_to_cv2 := fun _ => Except.ok 0
  flip := fun _ => Except.ok 0
  cvtColor := fun _ => Except.ok 0
  inRange := fun _ _ _ => Except.ok 0
  findContours := fun _ => Except.ok []
  contourArea := fun _ => 0
  boundingRect := fun _ => Except.ok (0, 0, 0, 0)
  publish := fun _ => Except.ok ()

/-- Concrete external operations whose decode step raises. -/
def sample_ops_fail : ExternalOps ℕ ℕ ℕ ℕ :=
  { sample_ops_empty with imgmsg_to_cv2 := fun _ => Except.error "decode" }

/-- Concrete calibrated tracker state. -/
def sample_state : TrackerState :=
  ⟨true, 500, 500, 320, 240, 640, 480, false, true⟩

/-- Same calibrated state with a different principal point (cx, cy). -/
def sample_state_cx : TrackerState :=
  ⟨true, 500, 500, 111, 222, 640, 480, false, true⟩

/-- Uncalibrated initial tracker state, as set up by `__init__`. -/
def initial_state : TrackerState :=
  ⟨false, 0, 0, 0, 0, 0, 0, true, false⟩

/-! ## Explicit values of the rotation matrices (cos/sin of multiples of π/2) -/

lemma rot_x_pi_eq :
    rot_x_pi = Matrix.of ![![1, 0, 0, 0], ![0, -1, 0, 0],
                           ![0, 0, -1, 0], ![0, 0, 0, 1]] := by
  funext i j
  fin_cases i <;> fin_cases j <;>
    simp [rot_x_pi, rotation_matrix, unit_vector, Real.cos_pi, Real.sin_pi,
      Matrix.vecHead, Matrix.vecTail]

lemma rot_x_minus_pi_2_eq :
    rot_x_minus_pi_2 = Matrix.of ![![1, 0, 0, 0], ![0, 0, 1, 0],
                                   ![0, -1, 0, 0], ![0, 0, 0, 1]] := by
  funext i j
  fin_cases i <;> fin_cases j <;>
    simp [rot_x_minus_pi_2, rotation_matrix, unit_vector, Real.cos_pi_div_two,
      Real.sin_pi_div_two, Matrix.vecHead, Matrix.vecTail]

lemma rot_z_minus_pi_2_eq :
    rot_z_minus_pi_2 = Matrix.of ![![0, 1, 0, 0], ![-1, 0, 0, 0],
                                   ![0, 0, 1, 0], ![0, 0, 0, 1]] := by
  funext i j
  fin_cases i <;> fin_cases j <;>
    simp [rot_z_minus_pi_2, rotation_matrix, unit_vector, Real.cos_pi_div_two,
      Real.sin_pi_div_two, Matrix.vecHead, Matrix.vecTail]

lemma align_rot_y_eq :
    align_rot_y = Matrix.of ![![0, 0, -1, 0], ![0, 1, 0, 0],
                              ![1, 0, 0, 0], ![0, 0, 0, 1]] := by
  funext i j
  fin_cases i <;> fin_cases j <;>
    simp [align_rot_y, rotation_matrix, unit_vector, Real.cos_pi_div_two,
      Real.sin_pi_div_two, Matrix.vecHead, Matrix.vecTail]

lemma align_rot_z_eq :
    align_rot_z = Matrix.of ![![-1, 0, 0, 0], ![0, -1, 0, 0],
                              ![0, 0, 1, 0], ![0, 0, 0, 1]] := by
  funext i j
  fin_cases i <;> fin_cases j <;>
    simp [align_rot_z, rotation_matrix, unit_vector, Real.cos_pi, Real.sin_pi,
      Matrix.vecHead, Matrix.vecTail]

lemma align_rot_eq :
    align_rot = Matrix.of ![![0, 0, 1, 0], ![0, -1, 0, 0],
                            ![1, 0, 0, 0], ![0, 0, 0, 1]] := by
  rw [align_rot, align_rot_z_eq, align_rot_y_eq]
  funext i j
  fin_cases i <;> fin_cases j <;>
    simp [Matrix.mul_apply, Fin.sum_univ_four, Matrix.vecHead, Matrix.vecTail]

lemma rot_mat_eq :
    rot_mat = Matrix.of ![![0, -1, 0, 0], ![1, 0, 0, 0],
                          ![0, 0, 1, 0], ![0, 0, 0, 1]] := by
  rw [rot_mat, align_rot_eq, rot_z_minus_pi_2_eq, rot_x_minus_pi_2_eq]
  funext i j
  fin_cases i <;> fin_cases j <;>
    simp [Matrix.mul_apply, Fin.sum_univ_four, Matrix.vecHead, Matrix.vecTail]

lemma transform_mat_eq :
    transform_mat = Matrix.of ![![0, -1, 0, 0.2785], ![1, 0, 0, 0.0125],
                                ![0, 0, 1, 0.0167], ![0, 0, 0, 1]] := by
  rw [transform_mat, trans_mat, rot_mat_eq]
  funext i j
  fin_cases i <;> fin_cases j <;>
    simp [Matrix.mul_apply, Fin.sum_univ_four, Matrix.vecHead, Matrix.vecTail]

lemma transform_mat_mul_right_inv :
    transform_mat * Matrix.of ![![0, 1, 0, -0.0125], ![-1, 0, 0, 0.2785],
                                ![0, 0, 1, -0.0167], ![0, 0, 0, 1]] = 1 := by
  rw [transform_mat_eq]
  funext i j
  fin_cases i <;> fin_cases j <;>
    simp [Matrix.mul_apply, Fin.sum_univ_four, Matrix.one_apply,
      Matrix.vecHead, Matrix.vecTail]

lemma inv_transform_mat_eq :
    inv_transform_mat = Matrix.of ![![0, 1, 0, -0.0125], ![-1, 0, 0, 0.2785],
                                    ![0, 0, 1, -0.0167], ![0, 0, 0, 1]] := by
  rw [inv_transform_mat]
  exact Matrix.inv_eq_right_inv transform_mat_mul_right_inv

lemma inv_mul_transform_mat : inv_transform_mat * transform_mat = 1 := by
  rw [inv_transform_mat_eq, transform_mat_eq]
  funext i j
  fin_cases i <;> fin_cases j <;>
    simp [Matrix.mul_apply, Fin.sum_univ_four, Matrix.one_apply,
      Matrix.vecHead, Matrix.vecTail]

lemma spec_rotation_xz_apply_22 : spec_rotation_xz_apply 2 2 = 0 := by
  rw [spec_rotation_xz_apply, rot_z_minus_pi_2_eq, rot_x_minus_pi_2_eq, rot_x_pi_eq]
  simp [Matrix.mul_apply, Fin.sum_univ_four, Matrix.vecHead, Matrix.vecTail]

lemma spec_rotation_xz_mul_22 : spec_rotation_xz_mul 2 2 = 0 := by
  rw [spec_rotation_xz_mul, rot_z_minus_pi_2_eq, rot_x_minus_pi_2_eq, rot_x_pi_eq]
  simp [Matrix.mul_apply, Fin.sum_univ_four, Matrix.vecHead, Matrix.vecTail]

lemma spec_rotation_xy_apply_22 : spec_rotation_xy_apply 2 2 = 0 := by
  rw [spec_rotation_xy_apply, show rotation_matrix (-(Real.pi / 2)) ![0, 1, 0] = align_rot_y from rfl,
    align_rot_y_eq, rot_x_minus_pi_2_eq, rot_x_pi_eq]
  simp [Matrix.mul_apply, Fin.sum_univ_four, Matrix.vecHead, Matrix.vecTail]

lemma spec_rotation_xy_mul_22 : spec_rotation_xy_mul 2 2 = 0 := by
  rw [spec_rotation_xy_mul, show rotation_matrix (-(Real.pi / 2)) ![0, 1, 0] = align_rot_y from rfl,
    align_rot_y_eq, rot_x_minus_pi_2_eq, rot_x_pi_eq]
  simp [Matrix.mul_apply, Fin.sum_univ_four, Matrix.vecHead, Matrix.vecTail]

/-! ## Calibration and frame-callback lemmas -/

lemma except_ok_bind {ε α β : Type} (a : α) (f : α → Except ε β) :
    (Except.ok a >>= f) = f a := rfl

lemma except_error_bind {ε α β : Type} (e : ε) (f : α → Except ε β) :
    ((Except.error e : Except ε α) >>= f) = Except.error e := rfl

lemma except_map_ok {ε α β : Type} (f : α → β) (a : α) :
    (f <$> (Except.ok a : Except ε α)) = Except.ok (f a) := rfl

lemma except_map_error {ε α β : Type} (f : α → β) (e : ε) :
    (f <$> (Except.error e : Except ε α)) = Except.error e := rfl

lemma camera_info_callback_noop (st : TrackerState) (m : CameraInfoMsg)
    (h : st.got_camera_info = true) : camera_info_callback st m = st := by
  simp [camera_info_callback, h]

lemma foldl_camera_info_noop (st : TrackerState) (h : st.got_camera_info = true)
    (ms : List CameraInfoMsg) : ms.foldl camera_info_callback st = st := by
  induction ms with
  | nil => rfl
  | cons a tl ih =>
    rw [List.foldl_cons, camera_info_callback_noop st a h]
    exact ih

/-! ## Claim theorems -/

/-- C1, counterexample: the rotation block of the constructed transform is
NOT the spec-claimed composition of (1) a 180° x-rotation, (2) a −90°
x-rotation, then a −90° rotation about the vertical axis: at entry (2,2)
the constructed matrix holds 1 while every reading of the claimed
composition (either application order, vertical = z or y) holds 0.  The
`rot_x_pi` matrix the claim includes is computed by `setup_transforms` but
never used. -/
theorem c1_rotation_composition_counterexample :
    transform_mat 2 2 = 1 ∧
    spec_rotation_xz_apply 2 2 = 0 ∧
    spec_rotation_xz_mul 2 2 = 0 ∧
    spec_rotation_xy_apply 2 2 = 0 ∧
    spec_rotation_xy_mul 2 2 = 0 ∧
    transform_mat 2 2 ≠ spec_rotation_xz_apply 2 2 ∧
    transform_mat 2 2 ≠ spec_rotation_xz_mul 2 2 := by
  have h1 : transform_mat 2 2 = 1 := by rw [transform_mat_eq]; simp
  refine ⟨h1, spec_rotation_xz_apply_22, spec_rotation_xz_mul_22,
    spec_rotation_xy_apply_22, spec_rotation_xy_mul_22, ?_, ?_⟩
  · rw [h1, spec_rotation_xz_apply_22]; norm_num
  · rw [h1, spec_rotation_xz_mul_22]; norm_num

/-- C1, amended: the extrinsic transform is built once at startup as
`T = Translation · Rotation` with translation offset
`(0.2785, 0.0125, 0.0167)`, but the rotation is the composition
`Rz(180°) · Ry(−90°) · Rz(−90°) · Rx(−90°)` (the code's
`align_rot_z · align_rot_y · rot_z_minus_pi_2 · rot_x_minus_pi_2`); the
180° x-rotation is dead code, and concretely `T` equals the matrix with
rotation block `[[0,−1,0],[1,0,0],[0,0,1]]` and last column
`(0.2785, 0.0125, 0.0167, 1)`. -/
theorem c1_rotation_composition_amended :
    transform_mat = trans_mat * rot_mat ∧
    rot_mat = align_rot_z * align_rot_y * rot_z_minus_pi_2 * rot_x_minus_pi_2 ∧
    transform_mat = Matrix.of ![![0, -1, 0, 0.2785], ![1, 0, 0, 0.0125],
                                ![0, 0, 1, 0.0167], ![0, 0, 0, 1]] :=
  ⟨rfl, rfl, transform_mat_eq⟩

/-- C4: `transform_point` appends a homogeneous 1, multiplies by the stored
inverse matrix `inv_transform_mat = transform_mat⁻¹` — which differs from
the forward matrix, as applying the forward matrix to the origin
demonstrates — and returns the first three components. -/
theorem c4_transform_point_uses_inverse :
    (∀ p : Fin 3 → ℝ, transform_point p = apply_homogeneous inv_transform_mat p) ∧
    inv_transform_mat = transform_mat⁻¹ ∧
    inv_transform_mat ≠ transform_mat ∧
    transform_point ![0, 0, 0] ≠ apply_homogeneous transform_mat ![0, 0, 0] := by
  refine ⟨fun p => rfl, rfl, ?_, ?_⟩
  · intro h
    have h00 := congrFun (congrFun h 0) 3
    rw [inv_transform_mat_eq, transform_mat_eq] at h00
    simp at h00
    norm_num at h00
  · intro h
    have h0 := congrFun h 0
    rw [transform_point, apply_homogeneous, inv_transform_mat_eq, transform_mat_eq] at h0
    simp [Matrix.mulVec, Matrix.dotProduct, Fin.sum_univ_four,
      Matrix.vecHead, Matrix.vecTail] at h0
    norm_num at h0

/-- C5: the stored transform and its stored inverse compose to the identity
in both orders, and mapping any point through the forward matrix and then
through `transform_point` (or vice versa) returns the point exactly, over
the exact-real embedding. -/
theorem c5_extrinsic_invertibility :
    transform_mat * inv_transform_mat = 1 ∧
    inv_transform_mat * transform_mat = 1 ∧
    ∀ p : Fin 3 → ℝ,
      transform_point (apply_homogeneous transform_mat p) = p ∧
      apply_homogeneous transform_mat (transform_point p) = p := by
  refine ⟨?_, inv_mul_transform_mat, ?_⟩
  · rw [inv_transform_mat_eq]
    exact transform_mat_mul_right_inv
  · intro p
    constructor <;>
    · funext i
      fin_cases i <;>
        simp [transform_point, apply_homogeneous, inv_transform_mat_eq,
          transform_mat_eq, Matrix.mulVec, Matrix.dotProduct, Fin.sum_univ_four,
          Matrix.vecHead, Matrix.vecTail]

/-- C2: for any intrinsics with positive focal lengths, the camera-frame ray
is `(d, -(-nx·d), -(-ny·d))` with `nx = (cx_px − width/2)/fx`,
`ny = (cy_px − height/2)/fy` and fixed depth `d = 1.0`; at the image centre
the ray is exactly `(1, 0, 0)`. -/
theorem c2_ray_projection (fx fy : ℝ) (image_width image_height : ℕ)
    (cx_px cy_px : ℝ) (hfx : 0 < fx) (hfy : 0 < fy) :
    point_camera fx fy image_width image_height cx_px cy_px =
      ![(1.0 : ℝ),
        -(-((cx_px - (image_width : ℝ) / 2) / fx) * 1.0),
        -(-((cy_px - (image_height : ℝ) / 2) / fy) * 1.0)] ∧
    point_camera fx fy image_width image_height
      ((image_width : ℝ) / 2) ((image_height : ℝ) / 2) = ![(1.0 : ℝ), 0, 0] := by
  constructor <;>
  · funext i
    fin_cases i <;> simp [point_camera]

/-- Witness for C2 at the spec's end-to-end intrinsics
(`fx = fy = 500`, `640×480`, centroid at the image centre `(320, 240)`). -/
theorem c2_ray_projection_witness :
    (0 : ℝ) < 500 ∧
    point_camera 500 500 640 480 320 240 = ![(1.0 : ℝ), 0, 0] := by
  refine ⟨by norm_num, ?_⟩
  have h := (c2_ray_projection 500 500 640 480 320 240
    (by norm_num) (by norm_num)).1
  rw [h]
  funext i
  fin_cases i <;> norm_num

/-- C3: for every body-frame direction `(dx, dy, dz)` the synthesized marker
sits at the body-frame origin, its orientation is the Euler composition of
roll 0, `pitch = atan2(dz, sqrt(dx²+dy²))` and `yaw − π/2` with
`yaw = −atan2(dy, dx)`, and its length is `sqrt(dx²+dy²+dz²)`. -/
theorem c3_pose_synthesis (d : Fin 3 → ℝ) :
    (publish_marker d).position = ![0, 0, 0] ∧
    (publish_marker d).orientation =
      quaternion_from_euler 0
        (arctan2 (d 2) (Real.sqrt (d 0 ^ 2 + d 1 ^ 2)))
        (-(arctan2 (d 1) (d 0)) - Real.pi / 2) ∧
    (publish_marker d).scale 0 = Real.sqrt (d 0 ^ 2 + d 1 ^ 2 + d 2 ^ 2) := by
  have e1 : d 0 ^ 2 + d 1 ^ 2 = d 0 * d 0 + d 1 * d 1 := by ring
  have e2 : d 0 ^ 2 + d 1 ^ 2 + d 2 ^ 2 = d 0 * d 0 + d 1 * d 1 + d 2 * d 2 := by
    ring
  rw [e2, e1]
  exact ⟨rfl, rfl, rfl⟩

/-- C9: on the degenerate direction `(0, 0, 0)` the pose synthesis is total:
`atan2(0, 0) = 0`, so yaw and pitch are 0, the marker length is
`sqrt(0) = 0`, and the orientation is the Euler composition at
`(0, 0, 0 − π/2)`. -/
theorem c9_degenerate_direction :
    arctan2 0 0 = 0 ∧
    arctan2 0 (Real.sqrt (0 * 0 + 0 * 0)) = 0 ∧
    Real.sqrt ((0 : ℝ) * 0 + 0 * 0 + 0 * 0) = 0 ∧
    (publish_marker ![0, 0, 0]).scale 0 = 0 ∧
    (publish_marker ![0, 0, 0]).orientation =
      quaternion_from_euler 0 0 (0 - Real.pi / 2) := by
  have h0 : arctan2 0 0 = 0 := by simp [arctan2]
  refine ⟨h0, ?_, ?_, ?_, ?_⟩
  · simpa using h0
  · simp
  · simp [publish_marker]
  · simp [publish_marker, h0]

/-- C6: calibration is write-once: delivering `m :: ms` to the calibration
handler from an uncalibrated state stores the intrinsics of `m`
(`fx = K[0][0]`, `fy = K[1][1]`, `cx = K[0][2]`, `cy = K[1][2]`, width,
height), and every later message in `ms` — whatever matrix it carries — is
a no-op on the whole state. -/
theorem c6_calibration_write_once (st : TrackerState)
    (h : st.got_camera_info = false) (m : CameraInfoMsg)
    (ms : List CameraInfoMsg) :
    ms.foldl camera_info_callback (camera_info_callback st m) =
      camera_info_callback st m ∧
    (camera_info_callback st m).fx = m.K 0 ∧
    (camera_info_callback st m).fy = m.K 4 ∧
    (camera_info_callback st m).cx = m.K 2 ∧
    (camera_info_callback st m).cy = m.K 5 ∧
    (camera_info_callback st m).image_width = m.width ∧
    (camera_info_callback st m).image_height = m.height ∧
    (camera_info_callback st m).got_camera_info = true := by
  have hset : camera_info_callback st m =
      { got_camera_info := true, fx := m.K 0, fy := m.K 4, cx := m.K 2,
        cy := m.K 5, image_width := m.width, image_height := m.height,
        camera_info_sub_active := false, image_sub_active := true } := by
    simp [camera_info_callback, h]
  refine ⟨?_, by rw [hset], by rw [hset], by rw [hset], by rw [hset],
    by rw [hset], by rw [hset], by rw [hset]⟩
  exact foldl_camera_info_noop _ (by rw [hset]) ms

/-- Witness for C6: a second calibration message carrying a different matrix
leaves the state stored from the first message intact. -/
theorem c6_calibration_write_once_witness :
    initial_state.got_camera_info = false ∧
    [CameraInfoMsg.mk ![9, 8, 7, 6, 5, 4, 3, 2, 1] 100 100].foldl
        camera_info_callback
        (camera_info_callback initial_state
          (CameraInfoMsg.mk ![1, 2, 3, 4, 5, 6, 7, 8, 9] 640 480)) =
      camera_info_callback initial_state
        (CameraInfoMsg.mk ![1, 2, 3, 4, 5, 6, 7, 8, 9] 640 480) ∧
    (camera_info_callback initial_state
        (CameraInfoMsg.mk ![1, 2, 3, 4, 5, 6, 7, 8, 9] 640 480)).fx = 1 := by
  have h := c6_calibration_write_once initial_state rfl
    (CameraInfoMsg.mk ![1, 2, 3, 4, 5, 6, 7, 8, 9] 640 480)
    [CameraInfoMsg.mk ![9, 8, 7, 6, 5, 4, 3, 2, 1] 100 100]
  exact ⟨rfl, h.1, h.2.1⟩

/-- C7: when decode, flip, color conversion and thresholding succeed and the
mask yields no contours, the frame raises no error and publishes nothing:
the try-body returns `ok []` and the callback's output is empty. -/
theorem c7_no_detection_emits_nothing {Msg Img Mask Contour : Type}
    (ops : ExternalOps Msg Img Mask Contour) (st : TrackerState) (msg : Msg)
    (img1 img2 hsvi : Img) (mask : Mask)
    (h1 : ops.imgmsg_to_cv2 msg = Except.ok img1)
    (h2 : ops.flip img1 = Except.ok img2)
    (h3 : ops.cvtColor img2 = Except.ok hsvi)
    (h4 : ops.inRange hsvi lower_green upper_green = Except.ok mask)
    (h5 : ops.findContours mask = Except.ok []) :
    image_callback_try_body ops st msg = Except.ok [] ∧
    (image_callback ops st msg).2 = [] := by
  have hbody : image_callback_try_body ops st msg = Except.ok [] := by
    simp [image_callback_try_body, h1, h2, h3, h4, h5, except_ok_bind]
    rfl
  refine ⟨hbody, ?_⟩
  by_cases hg : st.got_camera_info = false <;>
    simp [image_callback, hg, hbody]

/-- Witness for C7: with concrete all-succeeding operations whose mask has
no contours, the calibrated callback emits no message. -/
theorem c7_no_detection_emits_nothing_witness :
    image_callback_try_body sample_ops_empty sample_state 0 = Except.ok [] ∧
    (image_callback sample_ops_empty sample_state 0).2 = [] :=
  c7_no_detection_emits_nothing sample_ops_empty sample_state 0 0 0 0 0
    rfl rfl rfl rfl rfl

/-- C8: the frame callback is total (it returns instead of propagating any
exception of the try-body), never changes the tracker state — in particular
the stored calibration — and a frame whose try-body raised produces no
output message. -/
theorem c8_per_frame_error_containment {Msg Img Mask Contour : Type}
    (ops : ExternalOps Msg Img Mask Contour) (st : TrackerState) (msg : Msg) :
    (image_callback ops st msg).1 = st ∧
    ∀ e, image_callback_try_body ops st msg = Except.error e →
      (image_callback ops st msg).2 = [] := by
  constructor
  · by_cases hg : st.got_camera_info = false
    · simp [image_callback, hg]
    · cases hbody : image_callback_try_body ops st msg <;>
        simp [image_callback, hg, hbody]
  · intro e he
    by_cases hg : st.got_camera_info = false <;>
      simp [image_callback, hg, he]

/-- Witness for C8: a raising decode step leaves the state unchanged and
emits nothing. -/
theorem c8_per_frame_error_containment_witness :
    (image_callback sample_ops_fail sample_state 0).1 = sample_state ∧
    (image_callback sample_ops_fail sample_state 0).2 = [] := by
  have h := c8_per_frame_error_containment sample_ops_fail sample_state 0
  exact ⟨h.1, h.2 "decode" rfl⟩

/-- C10: the stored principal point is never read by frame processing — two
states agreeing on readiness, focal lengths and image size but with any
`cx`, `cy` produce identical outputs on identical frames. -/
theorem c10_principal_point_noninterference {Msg Img Mask Contour : Type}
    (ops : ExternalOps Msg Img Mask Contour) (st1 st2 : TrackerState)
    (msg : Msg)
    (hg : st1.got_camera_info = st2.got_camera_info)
    (hfx : st1.fx = st2.fx) (hfy : st1.fy = st2.fy)
    (hw : st1.image_width = st2.image_width)
    (hh : st1.image_height = st2.image_height) :
    (image_callback ops st1 msg).2 = (image_callback ops st2 msg).2 := by
  have hbody : image_callback_try_body ops st1 msg =
      image_callback_try_body ops st2 msg := by
    unfold image_callback_try_body
    rw [hfx, hfy, hw, hh]
  unfold image_callback
  rw [hg, hbody]
  by_cases h2 : st2.got_camera_info = false
  · simp [h2]
  · cases hb : image_callback_try_body ops st2 msg <;> simp [h2, hb]

/-- Witness for C10: two calibrated states differing only in the stored
principal point give the same output on the same frame. -/
theorem c10_principal_point_noninterference_witness :
    sample_state.cx = 320 ∧ sample_state_cx.cx = 111 ∧
    (image_callback sample_ops_empty sample_state 0).2 =
      (image_callback sample_ops_empty sample_state_cx 0).2 :=
  ⟨rfl, rfl, c10_principal_point_noninterference sample_ops_empty
    sample_state sample_state_cx 0 rfl rfl rfl rfl rfl⟩

end GazeboRecognition